import Mathlib

/-!
Verification of the storm simulation engine (src/storm_simulation.py).

The Python program is embedded shallowly over the rationals: every float
becomes a `ℚ` (exact arithmetic, the idealized semantics of the float
constants, all of which are exactly representable decimals), every Python
int becomes a `ℕ`.  Python's float modulo with a positive modulus is
`pymod` below (the real-number semantics `x - y * floor (x / y)`).

Two sources of values are not pure arithmetic in the source and are
embedded as explicit streams over which every theorem quantifies:

* `random.random()` draws (seeded once at construction): a stream
  `r : ℕ → ℚ`, consumed in call order through the index `rand_index`
  stored in the engine; the validity predicate `ValidR` states that every
  draw lies in `[0, 1)`, which is what `random.random` guarantees.
  `random.uniform a b` is `a + (b - a) * u` with `u` the next draw,
  exactly as in CPython.
* `math.sin iteration` values: a stream `si : ℕ → ℚ`, indexed by the
  iteration counter.  No theorem needs any bound on these values (they
  feed only `wind_direction`, which is wrapped by `pymod` regardless),
  so `si` is unconstrained.

Theorems quantified over all valid streams therefore cover, in
particular, the actual seeded Mersenne-Twister sequence of the program.
-/

set_option maxRecDepth 4000
set_option maxHeartbeats 1000000

namespace StormSim

/-- Python's `%` on floats with a positive modulus: `x - y * ⌊x / y⌋`. -/
def pymod (x y : ℚ) : ℚ := x - y * (⌊x / y⌋ : ℚ)

/-- The `Phase` enum of the source. -/
inductive Phase where
  | BREWING
  | THRESHOLD
  | FULL_STORM
  | END
deriving DecidableEq

/-- The five `full_stage` string values of the source, as an enum. -/
inductive FullStage where
  | impact
  | downpour
  | frenzy
  | chaos
  | silence
deriving DecidableEq

/-- The `StormState` dataclass (field order as in the source). -/
structure StormState where
  temperature : ℚ
  pressure : ℚ
  wind_speed : ℚ
  wind_direction : ℚ
  wind_instability : ℚ
  humidity : ℚ
  soil_temperature : ℚ
  shadow_density : ℚ
  petrichor_detected : Bool
  lightning_events : ℕ
  thunder_delay : ℚ
  rain_sound_detected : Bool
  rain_intensity : ℚ
  downdraft_force : ℚ
  lightning_frequency : ℚ
  turbulence : ℚ
  rain_particle_density : ℚ
deriving DecidableEq

/-- The `Storm` engine: `state` (the phase), `full_stage`, `iteration`,
`charge`, `lightning_distance`, the weather vector `s`, and the position
`rand_index` of the next unconsumed `random.random()` draw. -/
structure Storm where
  state : Phase
  full_stage : FullStage
  iteration : ℕ
  charge : ℚ
  lightning_distance : ℚ
  rand_index : ℕ
  s : StormState
deriving DecidableEq

/-- Constant table entry `brew_target_temp`. -/
def brew_target_temp : ℚ := 12.0
/-- Constant table entry `brew_temp_drop`. -/
def brew_temp_drop : ℚ := 0.3
/-- Constant table entry `brew_pressure_drop`. -/
def brew_pressure_drop : ℚ := 0.5
/-- Constant table entry `brew_shadow_gain`. -/
def brew_shadow_gain : ℚ := 0.05
/-- Constant table entry `brew_wind_gain`. -/
def brew_wind_gain : ℚ := 0.2
/-- Constant table entry `brew_humidity_gain`. -/
def brew_humidity_gain : ℚ := 1.5
/-- Constant table entry `petrichor_humidity`. -/
def petrichor_humidity : ℚ := 68.0
/-- Constant table entry `petrichor_soil`. -/
def petrichor_soil : ℚ := 18.0
/-- Constant table entry `brew_pressure_threshold`. -/
def brew_pressure_threshold : ℚ := 990.0
/-- Constant table entry `brew_wind_instability_threshold`. -/
def brew_wind_instability_threshold : ℚ := 5.0
/-- Constant table entry `brew_shadow_threshold`. -/
def brew_shadow_threshold : ℚ := 0.9
/-- Constant table entry `threshold_lightning_charge_gain`. -/
def threshold_lightning_charge_gain : ℚ := 8.0
/-- Constant table entry `threshold_lightning_threshold`. -/
def threshold_lightning_threshold : ℚ := 24.0
/-- Constant table entry `threshold_wind_gain`. -/
def threshold_wind_gain : ℚ := 1.1
/-- Constant table entry `threshold_humidity_gain`. -/
def threshold_humidity_gain : ℚ := 2.2
/-- Constant table entry `threshold_saturation`. -/
def threshold_saturation : ℚ := 98.0
/-- Constant table entry `threshold_turbulent_wind`. -/
def threshold_turbulent_wind : ℚ := 18.0
/-- Constant table entry `threshold_min_lightning` (a Python int). -/
def threshold_min_lightning : ℕ := 4
/-- Constant table entry `threshold_rain_distance_drop`. -/
def threshold_rain_distance_drop : ℚ := 1.7
/-- Constant table entry `full_vertical_burst`. -/
def full_vertical_burst : ℚ := 35.0
/-- Constant table entry `full_downpour_intensity`. -/
def full_downpour_intensity : ℚ := 60.0
/-- Constant table entry `full_frenzy_frequency`. -/
def full_frenzy_frequency : ℚ := 12.0
/-- Constant table entry `full_turbulence_peak`. -/
def full_turbulence_peak : ℚ := 40.0
/-- Constant table entry `full_particle_density_peak`. -/
def full_particle_density_peak : ℚ := 85.0
/-- Constant table entry `silence_decay`. -/
def silence_decay : ℚ := 4.5
/-- The `sound_speed` instance attribute. -/
def sound_speed : ℚ := 0.34

/-- The engine as constructed by `Storm.__init__`. -/
def init : Storm where
  state := Phase.BREWING
  full_stage := FullStage.impact
  iteration := 0
  charge := 0.0
  lightning_distance := 18.0
  rand_index := 0
  s :=
    { temperature := 20.0
      pressure := 1012.0
      wind_speed := 0.0
      wind_direction := 0.0
      wind_instability := 0.0
      humidity := 45.0
      soil_temperature := 20.0
      shadow_density := 0.1
      petrichor_detected := false
      lightning_events := 0
      thunder_delay := 0.0
      rain_sound_detected := false
      rain_intensity := 0.0
      downdraft_force := 0.0
      lightning_frequency := 0.0
      turbulence := 0.0
      rain_particle_density := 0.0 }

/-- `Storm._brewing_complete`. -/
def brewing_complete (st : Storm) : Prop :=
  st.s.temperature ≤ brew_target_temp
  ∧ st.s.pressure ≤ brew_pressure_threshold
  ∧ brew_wind_instability_threshold ≤ st.s.wind_instability
  ∧ brew_shadow_threshold ≤ st.s.shadow_density
  ∧ st.s.petrichor_detected = true

instance (st : Storm) : Decidable (brewing_complete st) := by
  unfold brewing_complete; infer_instance

/-- `Storm._threshold_complete`. -/
def threshold_complete (st : Storm) : Prop :=
  threshold_min_lightning ≤ st.s.lightning_events
  ∧ st.s.thunder_delay ≤ 20.0
  ∧ threshold_turbulent_wind ≤ st.s.wind_speed
  ∧ st.s.rain_sound_detected = true
  ∧ threshold_saturation ≤ st.s.humidity

instance (st : Storm) : Decidable (threshold_complete st) := by
  unfold threshold_complete; infer_instance

/-- `Storm._brewing_phase`.  `si st.iteration` stands for
`math.sin(self.iteration)`; the petrichor latch reads the already-updated
humidity and soil temperature, and the completion predicate reads the
fully updated state, as in the source. -/
def brewingPhase (si : ℕ → ℚ) (st : Storm) : Storm :=
  let hum := min 100.0 (st.s.humidity + brew_humidity_gain)
  let soil := max 10.0 (st.s.soil_temperature - 0.1)
  let st1 : Storm :=
    { st with s :=
      { st.s with
        temperature := max brew_target_temp (st.s.temperature - brew_temp_drop)
        pressure := max brew_pressure_threshold (st.s.pressure - brew_pressure_drop)
        wind_instability := st.s.wind_instability + brew_wind_gain
        wind_speed := min (st.s.wind_speed + brew_wind_gain) threshold_turbulent_wind
        wind_direction := pymod (st.s.wind_direction + 7.0 + si st.iteration) 360
        humidity := hum
        soil_temperature := soil
        shadow_density := min 1.0 (st.s.shadow_density + brew_shadow_gain)
        petrichor_detected := st.s.petrichor_detected
          || (decide (petrichor_humidity ≤ hum) && decide (soil ≤ petrichor_soil)) } }
  if brewing_complete st1 then { st1 with state := Phase.THRESHOLD } else st1

/-- `Storm._threshold_phase`.  `r st.rand_index` is the
`random.random()` draw consumed by the wind-direction update. -/
def thresholdPhase (r : ℕ → ℚ) (st : Storm) : Storm :=
  let charge1 := st.charge + threshold_lightning_charge_gain
  let fire := threshold_lightning_threshold ≤ charge1
  let charge2 := if fire then charge1 - threshold_lightning_threshold * 0.7 else charge1
  let events := if fire then st.s.lightning_events + 1 else st.s.lightning_events
  let dist := max 1.0 (st.lightning_distance - threshold_rain_distance_drop)
  let st1 : Storm :=
    { st with
      charge := charge2
      lightning_distance := dist
      rand_index := st.rand_index + 1
      s :=
      { st.s with
        lightning_events := events
        wind_speed := st.s.wind_speed + threshold_wind_gain
        wind_direction := pymod (st.s.wind_direction + 23.0 + r st.rand_index) 360
        wind_instability := st.s.wind_instability + 0.8
        thunder_delay := dist / sound_speed
        rain_sound_detected := st.s.rain_sound_detected || decide (dist ≤ 8.0)
        humidity := min 100.0 (st.s.humidity + threshold_humidity_gain) } }
  if threshold_complete st1 then { st1 with state := Phase.FULL_STORM } else st1

/-- `Storm._full_storm_phase`: the nested sub-stage state machine.
`random.uniform 1.5 3.0` is `1.5 + 1.5 * u` and `random.uniform 0.0 2.5`
is `2.5 * u`, with `u = r st.rand_index` the next draw. -/
def fullStormPhase (r : ℕ → ℚ) (st : Storm) : Storm :=
  match st.full_stage with
  | FullStage.impact =>
    let rain := st.s.rain_intensity + full_vertical_burst
    let st1 : Storm :=
      { st with s :=
        { st.s with
          rain_intensity := rain
          temperature := max 5.0 (st.s.temperature - 1.8)
          downdraft_force := st.s.downdraft_force + 6.0 } }
    if full_vertical_burst ≤ rain then { st1 with full_stage := FullStage.downpour } else st1
  | FullStage.downpour =>
    let rain := min full_downpour_intensity (st.s.rain_intensity + 5.0)
    let turb := st.s.turbulence + 3.5
    let st1 : Storm :=
      { st with
        rand_index := st.rand_index + 1
        s :=
        { st.s with
          rain_intensity := rain
          lightning_frequency := max st.s.lightning_frequency (4.0 + r st.rand_index)
          wind_speed := min 40.0 (st.s.wind_speed + 2.0)
          turbulence := turb } }
    if full_downpour_intensity ≤ rain ∧ 10.0 ≤ turb then
      { st1 with full_stage := FullStage.frenzy } else st1
  | FullStage.frenzy =>
    let lf := min full_frenzy_frequency
      (st.s.lightning_frequency + (1.5 + 1.5 * r st.rand_index))
    let turb := min full_turbulence_peak (st.s.turbulence + 4.2)
    let st1 : Storm :=
      { st with
        rand_index := st.rand_index + 1
        s :=
        { st.s with
          lightning_frequency := lf
          turbulence := turb
          rain_particle_density :=
            min full_particle_density_peak (st.s.rain_particle_density + 9.0)
          rain_intensity := min 80.0 (st.s.rain_intensity + 4.0) } }
    if full_frenzy_frequency ≤ lf ∧ 24.0 ≤ turb then
      { st1 with full_stage := FullStage.chaos } else st1
  | FullStage.chaos =>
    let turb := min full_turbulence_peak (st.s.turbulence + 2.0)
    let rpd := min full_particle_density_peak (st.s.rain_particle_density + 4.0)
    let st1 : Storm :=
      { st with
        rand_index := st.rand_index + 1
        s :=
        { st.s with
          turbulence := turb
          rain_particle_density := rpd
          wind_speed := min 50.0 (st.s.wind_speed + 1.5)
          lightning_frequency :=
            max st.s.lightning_frequency (10.0 + 2.5 * r st.rand_index) } }
    if full_turbulence_peak ≤ turb ∧ full_particle_density_peak ≤ rpd then
      { st1 with full_stage := FullStage.silence } else st1
  | FullStage.silence =>
    let st1 : Storm :=
      { st with s :=
        { st.s with
          rain_intensity := max 0.0 (st.s.rain_intensity - silence_decay)
          wind_speed := max 0.0 (st.s.wind_speed - silence_decay)
          turbulence := max 0.0 (st.s.turbulence - silence_decay)
          lightning_frequency := max 0.0 (st.s.lightning_frequency - silence_decay)
          rain_particle_density := max 0.0 (st.s.rain_particle_density - silence_decay)
          downdraft_force := max 0.0 (st.s.downdraft_force - silence_decay) } }
    if st1.s.rain_intensity ≤ 0.1 ∧ st1.s.wind_speed ≤ 0.1 ∧ st1.s.turbulence ≤ 0.1
        ∧ st1.s.lightning_frequency ≤ 0.1 ∧ st1.s.rain_particle_density ≤ 0.1
        ∧ st1.s.downdraft_force ≤ 0.1 then
      { st1 with state := Phase.END } else st1

/-- Increment the iteration counter (the `self.iteration += 1` at the
bottom of the `run` loop body). -/
def bumpIter (st : Storm) : Storm := { st with iteration := st.iteration + 1 }

/-- One iteration of the `run` loop: if the phase is `END` the loop has
exited and the state is unchanged; otherwise dispatch on the phase and
then increment the iteration counter. -/
def step (r si : ℕ → ℚ) (st : Storm) : Storm :=
  if st.state = Phase.END then st
  else
    bumpIter (match st.state with
      | Phase.BREWING => brewingPhase si st
      | Phase.THRESHOLD => thresholdPhase r st
      | Phase.FULL_STORM => fullStormPhase r st
      | Phase.END => st)

/-- `n` iterations of the `run` loop. -/
def stepN (r si : ℕ → ℚ) : ℕ → Storm → Storm
  | 0, st => st
  | n + 1, st => step r si (stepN r si n st)

/-- The zero stream, used as a concrete instantiation of the random
draws (it is a valid draw sequence) and of the sine values. -/
def zs : ℕ → ℚ := fun _ => 0

/-- Validity of a `random.random()` draw stream: every draw is in `[0, 1)`. -/
def ValidR (r : ℕ → ℚ) : Prop := ∀ i, 0 ≤ r i ∧ r i < 1

/-- Forget the wind direction.  States equal after `scrub` behave
identically except in the `wind_direction` field, which is the only
field fed by the sine values and (before `FULL_STORM`) by the random
draws. -/
def scrub (st : Storm) : Storm := { st with s := { st.s with wind_direction := 0 } }

/-- Check a boolean property at the states reached by `0, 1, ..., n-1`
steps of the zero-stream run starting at `st`. -/
def checkRun (f : Storm → Bool) : ℕ → Storm → Bool
  | 0, _ => true
  | n + 1, st => f st && checkRun f n (step zs zs st)

/-- States in which a step consumes randomness only for the wind
direction: the two early phases, and the impact sub-stage (which
consumes none). -/
def okPre (st : Storm) : Bool :=
  decide (st.state = Phase.BREWING ∨ st.state = Phase.THRESHOLD
    ∨ (st.state = Phase.FULL_STORM ∧ st.full_stage = FullStage.impact))

/-- Position of a phase in the forward order `BREWING → THRESHOLD →
FULL_STORM → END`. -/
def phaseIdx : Phase → ℕ
  | Phase.BREWING => 0
  | Phase.THRESHOLD => 1
  | Phase.FULL_STORM => 2
  | Phase.END => 3

/-- Position of a sub-stage in the forward order `impact → downpour →
frenzy → chaos → silence`. -/
def stageIdx : FullStage → ℕ
  | FullStage.impact => 0
  | FullStage.downpour => 1
  | FullStage.frenzy => 2
  | FullStage.chaos => 3
  | FullStage.silence => 4

/-- The master reachability invariant: the documented clamp intervals of
the bounded fields, the charge window, the distance floor, and the
bookkeeping facts needed to preserve them (the rain and downdraft
accumulators are still zero before the first `FULL_STORM` step). -/
def Inv (st : Storm) : Prop :=
  (0 ≤ st.s.humidity ∧ st.s.humidity ≤ 100)
  ∧ (0 ≤ st.s.shadow_density ∧ st.s.shadow_density ≤ 1)
  ∧ (0 ≤ st.s.wind_direction ∧ st.s.wind_direction < 360)
  ∧ (0 ≤ st.s.rain_intensity ∧ st.s.rain_intensity ≤ 80)
  ∧ (0 ≤ st.s.downdraft_force ∧ st.s.downdraft_force ≤ 6)
  ∧ (0 ≤ st.s.lightning_frequency ∧ st.s.lightning_frequency < 12.5)
  ∧ (0 ≤ st.s.rain_particle_density ∧ st.s.rain_particle_density ≤ 85)
  ∧ (0 ≤ st.charge ∧ st.charge < 24)
  ∧ 1 ≤ st.lightning_distance
  ∧ ((st.state = Phase.BREWING ∨ st.state = Phase.THRESHOLD) →
      st.full_stage = FullStage.impact ∧ st.s.rain_intensity = 0 ∧ st.s.downdraft_force = 0)
  ∧ ((st.state = Phase.FULL_STORM ∧ st.full_stage = FullStage.impact) →
      st.s.rain_intensity = 0 ∧ st.s.downdraft_force = 0)

/-- State of the engine after `k` steps of the downpour sub-stage
(entered at global step 55 with the concrete values proved by
computation; the lightning frequency is the one random-dependent field,
bounded below 5). -/
def DownSpec (k : ℕ) (st : Storm) : Prop :=
  st.state = Phase.FULL_STORM ∧ st.full_stage = FullStage.downpour
  ∧ st.s.rain_intensity = 35 + 5 * (k : ℚ)
  ∧ st.s.turbulence = 3.5 * (k : ℚ)
  ∧ st.s.wind_speed = 19.8 + 2 * (k : ℚ)
  ∧ 0 ≤ st.s.lightning_frequency ∧ st.s.lightning_frequency < 5
  ∧ st.s.rain_particle_density = 0
  ∧ st.s.downdraft_force = 6

/-- State on entry to the frenzy sub-stage. -/
def FrenzyEntry (st : Storm) : Prop :=
  st.state = Phase.FULL_STORM ∧ st.full_stage = FullStage.frenzy
  ∧ st.s.rain_intensity = 60
  ∧ st.s.turbulence = 17.5
  ∧ st.s.wind_speed = 29.8
  ∧ 4 ≤ st.s.lightning_frequency ∧ st.s.lightning_frequency < 5
  ∧ st.s.rain_particle_density = 0
  ∧ st.s.downdraft_force = 6

/-- State after `k` steps inside the frenzy sub-stage: the lightning
frequency has been driven up by at least `1.5` per step (capped at 12),
the other drivers evolve deterministically. -/
def FrenzySpec (k : ℕ) (st : Storm) : Prop :=
  st.state = Phase.FULL_STORM ∧ st.full_stage = FullStage.frenzy
  ∧ min 12 (4 + 1.5 * (k : ℚ)) ≤ st.s.lightning_frequency ∧ st.s.lightning_frequency ≤ 12
  ∧ st.s.turbulence = min 40 (17.5 + 4.2 * (k : ℚ))
  ∧ st.s.rain_particle_density = min 85 (9 * (k : ℚ))
  ∧ st.s.rain_intensity = min 80 (60 + 4 * (k : ℚ))
  ∧ st.s.wind_speed = 29.8
  ∧ st.s.downdraft_force = 6

/-- State on entry to the chaos sub-stage. -/
def ChaosEntry (st : Storm) : Prop :=
  st.state = Phase.FULL_STORM ∧ st.full_stage = FullStage.chaos
  ∧ st.s.lightning_frequency = 12
  ∧ 24 ≤ st.s.turbulence ∧ st.s.turbulence ≤ 40
  ∧ 9 ≤ st.s.rain_particle_density ∧ st.s.rain_particle_density ≤ 85
  ∧ st.s.rain_intensity ≤ 80
  ∧ st.s.wind_speed ≤ 50
  ∧ st.s.downdraft_force = 6

/-- State after `k` steps inside the chaos sub-stage: turbulence and
particle density march up by fixed increments toward their peaks. -/
def ChaosSpec (k : ℕ) (st : Storm) : Prop :=
  st.state = Phase.FULL_STORM ∧ st.full_stage = FullStage.chaos
  ∧ min 40 (24 + 2 * (k : ℚ)) ≤ st.s.turbulence ∧ st.s.turbulence ≤ 40
  ∧ min 85 (9 + 4 * (k : ℚ)) ≤ st.s.rain_particle_density ∧ st.s.rain_particle_density ≤ 85
  ∧ 12 ≤ st.s.lightning_frequency ∧ st.s.lightning_frequency < 12.5
  ∧ st.s.rain_intensity ≤ 80
  ∧ st.s.wind_speed ≤ 50
  ∧ st.s.downdraft_force = 6

/-- State on entry to the silence sub-stage: every decaying quantity is
bounded by a fixed cap. -/
def SilEntry (st : Storm) : Prop :=
  st.state = Phase.FULL_STORM ∧ st.full_stage = FullStage.silence
  ∧ st.s.rain_intensity ≤ 80
  ∧ st.s.wind_speed ≤ 50
  ∧ st.s.turbulence ≤ 40
  ∧ st.s.lightning_frequency ≤ 12.5
  ∧ st.s.rain_particle_density ≤ 85
  ∧ st.s.downdraft_force ≤ 6

/-- State after `k` steps inside the silence sub-stage: every decaying
quantity has come down by `4.5` per step (floored at 0). -/
def SilenceSpec (k : ℕ) (st : Storm) : Prop :=
  st.state = Phase.FULL_STORM ∧ st.full_stage = FullStage.silence
  ∧ st.s.rain_intensity ≤ max 0 (80 - 4.5 * (k : ℚ))
  ∧ st.s.wind_speed ≤ max 0 (50 - 4.5 * (k : ℚ))
  ∧ st.s.turbulence ≤ max 0 (40 - 4.5 * (k : ℚ))
  ∧ st.s.lightning_frequency ≤ max 0 (12.5 - 4.5 * (k : ℚ))
  ∧ st.s.rain_particle_density ≤ max 0 (85 - 4.5 * (k : ℚ))
  ∧ st.s.downdraft_force ≤ max 0 (6 - 4.5 * (k : ℚ))

/-! ### Basic arithmetic lemmas -/

lemma pymod_nonneg (x : ℚ) {y : ℚ} (hy : 0 < y) : 0 ≤ pymod x y := by
  have h1 : (⌊x / y⌋ : ℚ) ≤ x / y := Int.floor_le _
  have h2 : y * (⌊x / y⌋ : ℚ) ≤ y * (x / y) := mul_le_mul_of_nonneg_left h1 hy.le
  have h3 : y * (x / y) = x := by field_simp
  unfold pymod; linarith

lemma pymod_lt (x : ℚ) {y : ℚ} (hy : 0 < y) : pymod x y < y := by
  have h1 : x / y < (⌊x / y⌋ : ℚ) + 1 := Int.lt_floor_add_one _
  have h2 : y * (x / y) < y * ((⌊x / y⌋ : ℚ) + 1) := mul_lt_mul_of_pos_left h1 hy
  have h3 : y * (x / y) = x := by field_simp
  unfold pymod; nlinarith

lemma min_clamp_add (c x d : ℚ) (hd : 0 ≤ d) : min c (min c x + d) = min c (x + d) := by
  rcases le_total x c with h | h
  · rw [min_eq_right h]
  · rw [min_eq_left h, min_eq_left (by linarith), min_eq_left (by linarith)]

lemma max0_decay {x b : ℚ} {c : ℚ} (hc : 0 ≤ c) (h : x ≤ max 0 b) :
    max 0 (x - c) ≤ max 0 (b - c) := by
  rcases le_total b 0 with hb | hb
  · rw [max_eq_left hb] at h
    exact max_le (le_max_left _ _) (le_trans (by linarith) (le_max_left _ _))
  · rw [max_eq_right hb] at h
    exact max_le (le_max_left _ _) (le_trans (by linarith) (le_max_right _ _))

/-! ### Unfolding the step function by phase -/

lemma step_end {r si : ℕ → ℚ} {st : Storm} (h : st.state = Phase.END) :
    step r si st = st := by
  simp [step, h]

lemma step_brewing {r si : ℕ → ℚ} {st : Storm} (h : st.state = Phase.BREWING) :
    step r si st = bumpIter (brewingPhase si st) := by
  simp [step, h]

lemma step_threshold {r si : ℕ → ℚ} {st : Storm} (h : st.state = Phase.THRESHOLD) :
    step r si st = bumpIter (thresholdPhase r st) := by
  simp [step, h]

lemma step_full {r si : ℕ → ℚ} {st : Storm} (h : st.state = Phase.FULL_STORM) :
    step r si st = bumpIter (fullStormPhase r st) := by
  simp [step, h]

lemma stepN_succ_left (r si : ℕ → ℚ) (n : ℕ) (st : Storm) :
    stepN r si (n + 1) st = stepN r si n (step r si st) := by
  induction n with
  | zero => rfl
  | succ k ih => show step r si (stepN r si (k + 1) st) = _; rw [ih]; rfl

lemma stepN_add (r si : ℕ → ℚ) (m n : ℕ) (st : Storm) :
    stepN r si (n + m) st = stepN r si m (stepN r si n st) := by
  induction m with
  | zero => rfl
  | succ k ih => show step r si (stepN r si (n + k) st) = _; rw [ih]; rfl

/-! ### Forward-only phase and sub-stage order -/

lemma phase_mono (r si : ℕ → ℚ) (st : Storm) :
    phaseIdx st.state ≤ phaseIdx (step r si st).state := by
  cases hst : st.state with
  | BREWING => exact Nat.zero_le _
  | THRESHOLD =>
    rw [step_threshold hst]
    simp only [bumpIter, thresholdPhase]
    split_ifs <;> simp [phaseIdx, hst]
  | FULL_STORM =>
    rw [step_full hst]
    simp only [bumpIter, fullStormPhase]
    cases st.full_stage <;> (simp only []; split_ifs <;> simp [phaseIdx, hst])
  | END => rw [step_end hst, hst]

lemma stage_mono (r si : ℕ → ℚ) (st : Storm) :
    stageIdx st.full_stage ≤ stageIdx (step r si st).full_stage := by
  cases hst : st.state with
  | BREWING =>
    rw [step_brewing hst]
    simp only [bumpIter, brewingPhase]
    split_ifs <;> simp
  | THRESHOLD =>
    rw [step_threshold hst]
    simp only [bumpIter, thresholdPhase]
    split_ifs <;> simp
  | FULL_STORM =>
    rw [step_full hst]
    simp only [bumpIter, fullStormPhase]
    cases hfs : st.full_stage <;>
      (simp only []; split_ifs <;> simp [stageIdx, hfs])
  | END => rw [step_end hst]

/-! ### The two boolean latches -/

lemma petrichor_latch (r si : ℕ → ℚ) (st : Storm)
    (h : st.s.petrichor_detected = true) :
    (step r si st).s.petrichor_detected = true := by
  cases hst : st.state with
  | BREWING =>
    rw [step_brewing hst]
    simp only [bumpIter, brewingPhase]
    split_ifs <;> simp [h]
  | THRESHOLD =>
    rw [step_threshold hst]
    simp only [bumpIter, thresholdPhase]
    split_ifs <;> simp [h]
  | FULL_STORM =>
    rw [step_full hst]
    simp only [bumpIter, fullStormPhase]
    cases hfs : st.full_stage <;> (simp only []; split_ifs <;> simp [h])
  | END => rw [step_end hst]; exact h

lemma rain_sound_latch (r si : ℕ → ℚ) (st : Storm)
    (h : st.s.rain_sound_detected = true) :
    (step r si st).s.rain_sound_detected = true := by
  cases hst : st.state with
  | BREWING =>
    rw [step_brewing hst]
    simp only [bumpIter, brewingPhase]
    split_ifs <;> simp [h]
  | THRESHOLD =>
    rw [step_threshold hst]
    simp only [bumpIter, thresholdPhase]
    split_ifs <;> simp [h]
  | FULL_STORM =>
    rw [step_full hst]
    simp only [bumpIter, fullStormPhase]
    cases hfs : st.full_stage <;> (simp only []; split_ifs <;> simp [h])
  | END => rw [step_end hst]; exact h

/-! ### Preservation of the master invariant -/

lemma Inv_step (r si : ℕ → ℚ) (st : Storm) (hr : ValidR r) (h : Inv st) :
    Inv (step r si st) := by
  obtain ⟨⟨hh0, hh1⟩, ⟨hsd0, hsd1⟩, ⟨hw0, hw1⟩, ⟨hra0, hra1⟩, ⟨hdd0, hdd1⟩,
    ⟨hlf0, hlf1⟩, ⟨hpd0, hpd1⟩, ⟨hch0, hch1⟩, hdist, hpre, himp⟩ := h
  cases hst : st.state with
  | BREWING =>
    obtain ⟨hJs, hJr, hJd⟩ := hpre (Or.inl hst)
    rw [step_brewing hst]
    unfold Inv bumpIter brewingPhase
    simp only [brew_target_temp, brew_temp_drop, brew_pressure_threshold, brew_pressure_drop,
      brew_wind_gain, threshold_turbulent_wind, brew_humidity_gain, brew_shadow_gain,
      petrichor_humidity, petrichor_soil]
    split_ifs <;>
      exact ⟨⟨le_min (by norm_num) (by linarith), le_trans (min_le_left _ _) (by norm_num)⟩,
        ⟨le_min (by norm_num) (by linarith), le_trans (min_le_left _ _) (by norm_num)⟩,
        ⟨pymod_nonneg _ (by norm_num), pymod_lt _ (by norm_num)⟩,
        ⟨hra0, hra1⟩, ⟨hdd0, hdd1⟩, ⟨hlf0, hlf1⟩, ⟨hpd0, hpd1⟩, ⟨hch0, hch1⟩, hdist,
        fun _ => ⟨hJs, hJr, hJd⟩, fun _ => ⟨hJr, hJd⟩⟩
  | THRESHOLD =>
    obtain ⟨hJs, hJr, hJd⟩ := hpre (Or.inr hst)
    rw [step_threshold hst]
    unfold Inv bumpIter thresholdPhase
    simp only [threshold_lightning_charge_gain, threshold_lightning_threshold,
      threshold_wind_gain, threshold_humidity_gain, threshold_rain_distance_drop, sound_speed]
    split_ifs <;>
      exact ⟨⟨le_min (by norm_num) (by linarith), le_trans (min_le_left _ _) (by norm_num)⟩,
        ⟨hsd0, hsd1⟩,
        ⟨pymod_nonneg _ (by norm_num), pymod_lt _ (by norm_num)⟩,
        ⟨hra0, hra1⟩, ⟨hdd0, hdd1⟩, ⟨hlf0, hlf1⟩, ⟨hpd0, hpd1⟩,
        ⟨by linarith, by linarith⟩,
        le_trans (by norm_num) (le_max_left _ _),
        fun _ => ⟨hJs, hJr, hJd⟩, fun _ => ⟨hJr, hJd⟩⟩
  | FULL_STORM =>
    obtain ⟨hu0, hu1⟩ := hr st.rand_index
    rw [step_full hst]
    unfold Inv bumpIter fullStormPhase
    simp only [full_vertical_burst, full_downpour_intensity, full_frenzy_frequency,
      full_turbulence_peak, full_particle_density_peak, silence_decay]
    cases hfs : st.full_stage with
    | impact =>
      obtain ⟨hIr, hId⟩ := himp ⟨hst, hfs⟩
      simp only []
      split_ifs with hcond
      · exact ⟨⟨hh0, hh1⟩, ⟨hsd0, hsd1⟩, ⟨hw0, hw1⟩,
          ⟨by linarith, by linarith⟩, ⟨by linarith, by linarith⟩,
          ⟨hlf0, hlf1⟩, ⟨hpd0, hpd1⟩, ⟨hch0, hch1⟩, hdist,
          fun hx => by simp [hst] at hx, fun hx => by simp at hx⟩
      · exact absurd (by linarith) hcond
    | downpour =>
      simp only []
      split_ifs <;>
        exact ⟨⟨hh0, hh1⟩, ⟨hsd0, hsd1⟩, ⟨hw0, hw1⟩,
          ⟨le_min (by norm_num) (by linarith), le_trans (min_le_left _ _) (by norm_num)⟩,
          ⟨hdd0, hdd1⟩,
          ⟨le_trans hlf0 (le_max_left _ _), max_lt hlf1 (by linarith)⟩,
          ⟨hpd0, hpd1⟩, ⟨hch0, hch1⟩, hdist,
          fun hx => by simp [hst] at hx, fun hx => by simp [hst, hfs] at hx⟩
    | frenzy =>
      simp only []
      split_ifs <;>
        exact ⟨⟨hh0, hh1⟩, ⟨hsd0, hsd1⟩, ⟨hw0, hw1⟩,
          ⟨le_min (by norm_num) (by linarith), le_trans (min_le_left _ _) (by norm_num)⟩,
          ⟨hdd0, hdd1⟩,
          ⟨le_min (by norm_num) (by linarith), lt_of_le_of_lt (min_le_left _ _) (by norm_num)⟩,
          ⟨le_min (by norm_num) (by linarith), le_trans (min_le_left _ _) (by norm_num)⟩,
          ⟨hch0, hch1⟩, hdist,
          fun hx => by simp [hst] at hx, fun hx => by simp [hst, hfs] at hx⟩
    | chaos =>
      simp only []
      split_ifs <;>
        exact ⟨⟨hh0, hh1⟩, ⟨hsd0, hsd1⟩, ⟨hw0, hw1⟩,
          ⟨hra0, hra1⟩, ⟨hdd0, hdd1⟩,
          ⟨le_trans hlf0 (le_max_left _ _), max_lt hlf1 (by linarith)⟩,
          ⟨le_min (by norm_num) (by linarith), le_trans (min_le_left _ _) (by norm_num)⟩,
          ⟨hch0, hch1⟩, hdist,
          fun hx => by simp [hst] at hx, fun hx => by simp [hst, hfs] at hx⟩
    | silence =>
      simp only []
      split_ifs <;>
        exact ⟨⟨hh0, hh1⟩, ⟨hsd0, hsd1⟩, ⟨hw0, hw1⟩,
          ⟨le_trans (by norm_num) (le_max_left _ _), max_le (by norm_num) (by linarith)⟩,
          ⟨le_trans (by norm_num) (le_max_left _ _), max_le (by norm_num) (by linarith)⟩,
          ⟨le_trans (by norm_num) (le_max_left _ _), max_lt (by norm_num) (by linarith)⟩,
          ⟨le_trans (by norm_num) (le_max_left _ _), max_le (by norm_num) (by linarith)⟩,
          ⟨hch0, hch1⟩, hdist,
          fun hx => by simp [hst] at hx, fun hx => by simp [hst, hfs] at hx⟩
  | END =>
    rw [step_end hst]
    exact ⟨⟨hh0, hh1⟩, ⟨hsd0, hsd1⟩, ⟨hw0, hw1⟩, ⟨hra0, hra1⟩, ⟨hdd0, hdd1⟩,
      ⟨hlf0, hlf1⟩, ⟨hpd0, hpd1⟩, ⟨hch0, hch1⟩, hdist, hpre, himp⟩

lemma Inv_init : Inv init := by
  unfold Inv init
  norm_num

lemma Inv_stepN (r si : ℕ → ℚ) (hr : ValidR r) (n : ℕ) : Inv (stepN r si n init) := by
  induction n with
  | zero => exact Inv_init
  | succ k ih => exact Inv_step r si _ hr ih

/-! ### Stream-independence of everything but the wind direction,
through BREWING, THRESHOLD and the impact sub-stage -/

lemma scrub_eq_fields {a b : Storm} (h : scrub a = scrub b) :
    a.state = b.state ∧ a.full_stage = b.full_stage ∧ a.iteration = b.iteration
    ∧ a.charge = b.charge ∧ a.lightning_distance = b.lightning_distance
    ∧ a.rand_index = b.rand_index
    ∧ a.s.temperature = b.s.temperature ∧ a.s.pressure = b.s.pressure
    ∧ a.s.wind_speed = b.s.wind_speed ∧ a.s.wind_instability = b.s.wind_instability
    ∧ a.s.humidity = b.s.humidity ∧ a.s.soil_temperature = b.s.soil_temperature
    ∧ a.s.shadow_density = b.s.shadow_density
    ∧ a.s.petrichor_detected = b.s.petrichor_detected
    ∧ a.s.lightning_events = b.s.lightning_events
    ∧ a.s.thunder_delay = b.s.thunder_delay
    ∧ a.s.rain_sound_detected = b.s.rain_sound_detected
    ∧ a.s.rain_intensity = b.s.rain_intensity
    ∧ a.s.downdraft_force = b.s.downdraft_force
    ∧ a.s.lightning_frequency = b.s.lightning_frequency
    ∧ a.s.turbulence = b.s.turbulence
    ∧ a.s.rain_particle_density = b.s.rain_particle_density := by
  unfold scrub at h
  rw [Storm.mk.injEq, StormState.mk.injEq] at h
  obtain ⟨h1, h2, h3, h4, h5, h6, ht, hp, hws, hwd0, hwi, hhum, hsoil, hsh, hpet, hev,
    hdel, hrs, hrain, hddf, hlf, hturb, hrpd⟩ := h
  exact ⟨h1, h2, h3, h4, h5, h6, ht, hp, hws, hwi, hhum, hsoil, hsh, hpet, hev,
    hdel, hrs, hrain, hddf, hlf, hturb, hrpd⟩

lemma scrub_step {r si r' si' : ℕ → ℚ} {a b : Storm} (h : scrub a = scrub b)
    (hok : okPre b = true) : scrub (step r si a) = scrub (step r' si' b) := by
  obtain ⟨h1, h2, h3, h4, h5, h6, ht, hp, hws, hwi, hhum, hsoil, hsh, hpet, hev,
    hdel, hrs, hrain, hddf, hlf, hturb, hrpd⟩ := scrub_eq_fields h
  unfold okPre at hok
  rw [decide_eq_true_eq] at hok
  rcases hok with hb | hb | ⟨hb, hfs⟩
  · rw [step_brewing (h1.trans hb), step_brewing hb]
    unfold bumpIter brewingPhase brewing_complete scrub
    simp only [h1, h2, h3, h4, h5, h6, ht, hp, hws, hwi, hhum, hsoil, hsh, hpet, hev,
      hdel, hrs, hrain, hddf, hlf, hturb, hrpd]
    split_ifs <;> rfl
  · rw [step_threshold (h1.trans hb), step_threshold hb]
    unfold bumpIter thresholdPhase threshold_complete scrub
    simp only [h1, h2, h3, h4, h5, h6, ht, hp, hws, hwi, hhum, hsoil, hsh, hpet, hev,
      hdel, hrs, hrain, hddf, hlf, hturb, hrpd]
    split_ifs <;> rfl
  · rw [step_full (h1.trans hb), step_full hb]
    unfold bumpIter fullStormPhase scrub
    rw [h2, hfs]
    simp only [h1, h2, h3, h4, h5, h6, ht, hp, hws, hwi, hhum, hsoil, hsh, hpet, hev,
      hdel, hrs, hrain, hddf, hlf, hturb, hrpd]
    split_ifs <;> rfl

lemma checkRun_ok {f : Storm → Bool} :
    ∀ n st, checkRun f n st = true → ∀ k, k < n → f (stepN zs zs k st) = true := by
  intro n
  induction n with
  | zero => exact fun st _ k hk => absurd hk (Nat.not_lt_zero k)
  | succ m ih =>
    intro st h k hk
    rw [checkRun, Bool.and_eq_true] at h
    cases k with
    | zero => exact h.1
    | succ j =>
      rw [stepN_succ_left]
      exact ih (step zs zs st) h.2 j (by omega)

lemma okPre_55 : checkRun okPre 55 init = true := by with_unfolding_all decide

lemma scrub_trace (r si : ℕ → ℚ) :
    ∀ n, n ≤ 55 → scrub (stepN r si n init) = scrub (stepN zs zs n init) := by
  intro n
  induction n with
  | zero => intro _; rfl
  | succ m ih =>
    intro hm
    exact scrub_step (ih (by omega)) (checkRun_ok 55 init okPre_55 m (by omega))

/-! ### The downpour sub-stage: exactly five steps from entry to frenzy -/

lemma min_add_le (c x d : ℚ) (hd : 0 ≤ d) : min c (x + d) ≤ min c x + d := by
  rcases le_total x c with h | h
  · rw [min_eq_right h]; exact min_le_right _ _
  · rw [min_eq_left h]; exact le_trans (min_le_left _ _) (by linarith)

lemma down_entry (r si : ℕ → ℚ) : DownSpec 0 (stepN r si 55 init) := by
  obtain ⟨h1, h2, h3, h4, h5, h6, ht, hp, hws, hwi, hhum, hsoil, hsh, hpet, hev,
    hdel, hrs, hrain, hddf, hlf, hturb, hrpd⟩ :=
    scrub_eq_fields (scrub_trace r si 55 (le_refl 55))
  refine ⟨h1.trans (by with_unfolding_all decide), h2.trans (by with_unfolding_all decide),
    hrain.trans (by with_unfolding_all decide), hturb.trans (by with_unfolding_all decide),
    hws.trans (by with_unfolding_all decide), ?_, ?_,
    hrpd.trans (by with_unfolding_all decide), hddf.trans (by with_unfolding_all decide)⟩
  · rw [hlf]; with_unfolding_all decide
  · rw [hlf]; with_unfolding_all decide

lemma down_step (r si : ℕ → ℚ) {st : Storm} {k : ℕ} (hr : ValidR r) (hk : k < 4)
    (h : DownSpec k st) : DownSpec (k + 1) (step r si st) := by
  obtain ⟨hst, hfs, hrain, hturb, hws, hlf0, hlf1, hrpd, hddf⟩ := h
  obtain ⟨hu0, hu1⟩ := hr st.rand_index
  have hkq : (k : ℚ) < 4 := by exact_mod_cast hk
  have hkq0 : (0 : ℚ) ≤ (k : ℚ) := by positivity
  have hmr : min 60.0 (35 + 5 * (k : ℚ) + 5.0) = 35 + 5 * (k : ℚ) + 5.0 :=
    min_eq_right (by linarith)
  have hmw : min 40.0 (19.8 + 2 * (k : ℚ) + 2.0) = 19.8 + 2 * (k : ℚ) + 2.0 :=
    min_eq_right (by linarith)
  rw [step_full hst]
  unfold bumpIter fullStormPhase
  rw [hfs]
  simp only [full_downpour_intensity]
  split_ifs with hcond
  · exfalso
    rcases hcond with ⟨hc1, _⟩
    rw [hrain, hmr] at hc1
    linarith
  · refine ⟨hst, rfl, ?_, ?_, ?_, ?_, ?_, hrpd, hddf⟩
    · rw [hrain, hmr]; push_cast; ring
    · rw [hturb]; push_cast; ring
    · rw [hws, hmw]; push_cast; ring
    · exact le_trans hlf0 (le_max_left _ _)
    · exact max_lt hlf1 (by linarith)

lemma down_last (r si : ℕ → ℚ) {st : Storm} (hr : ValidR r)
    (h : DownSpec 4 st) : FrenzyEntry (step r si st) := by
  obtain ⟨hst, hfs, hrain, hturb, hws, hlf0, hlf1, hrpd, hddf⟩ := h
  obtain ⟨hu0, hu1⟩ := hr st.rand_index
  have h4 : (35 : ℚ) + 5 * ((4 : ℕ) : ℚ) = 55 := by push_cast; norm_num
  have hw4 : (19.8 : ℚ) + 2 * ((4 : ℕ) : ℚ) = 27.8 := by push_cast; norm_num
  have ht4 : (3.5 : ℚ) * ((4 : ℕ) : ℚ) = 14 := by push_cast; norm_num
  rw [h4] at hrain
  rw [hw4] at hws
  rw [ht4] at hturb
  rw [step_full hst]
  unfold bumpIter fullStormPhase
  rw [hfs]
  simp only [full_downpour_intensity]
  split_ifs with hcond
  · refine ⟨hst, rfl, ?_, ?_, ?_, ?_, ?_, hrpd, hddf⟩
    · rw [hrain]; norm_num
    · rw [hturb]; norm_num
    · rw [hws, min_eq_right (show (27.8 : ℚ) + 2.0 ≤ 40.0 by norm_num)]
      norm_num
    · exact le_trans (by linarith) (le_max_right _ _)
    · exact max_lt hlf1 (by linarith)
  · exfalso
    apply hcond
    refine ⟨?_, ?_⟩
    · rw [hrain]
      exact le_min (by norm_num) (by norm_num)
    · rw [hturb]; norm_num

lemma down_run (r si : ℕ → ℚ) {st : Storm} (hr : ValidR r)
    (h : DownSpec 0 st) : FrenzyEntry (stepN r si 5 st) := by
  have h1 := down_step r si hr (by norm_num) h
  have h2 := down_step r si hr (by norm_num) h1
  have h3 := down_step r si hr (by norm_num) h2
  have h4 := down_step r si hr (by norm_num) h3
  exact down_last r si hr h4

/-! ### The frenzy sub-stage: at most six steps from entry to chaos -/

lemma frenzy_entry_spec {st : Storm} (h : FrenzyEntry st) : FrenzySpec 0 st := by
  obtain ⟨hst, hfs, hrain, hturb, hws, hlf0, hlf1, hrpd, hddf⟩ := h
  refine ⟨hst, hfs, ?_, by linarith, ?_, ?_, ?_, hws, hddf⟩
  · rw [show min (12:ℚ) (4 + 1.5*((0:ℕ):ℚ)) = 4 from by push_cast; norm_num]
    exact hlf0
  · rw [hturb]; push_cast; norm_num
  · rw [hrpd]; push_cast; norm_num
  · rw [hrain]; push_cast; norm_num

lemma frenzy_step (r si : ℕ → ℚ) {st : Storm} {k : ℕ} (hr : ValidR r)
    (h : FrenzySpec k st) :
    ChaosEntry (step r si st) ∨ FrenzySpec (k + 1) (step r si st) := by
  obtain ⟨hst, hfs, hlfmin, hlfmax, hturb, hrpd, hrain, hws, hddf⟩ := h
  obtain ⟨hu0, hu1⟩ := hr st.rand_index
  have hrpd0 : (0 : ℚ) ≤ min 85 (9 * (k : ℚ)) := le_min (by norm_num) (by positivity)
  rw [step_full hst]
  unfold bumpIter fullStormPhase
  rw [hfs]
  simp only [full_frenzy_frequency, full_turbulence_peak, full_particle_density_peak,
    show (12.0:ℚ) = 12 from by norm_num, show (40.0:ℚ) = 40 from by norm_num,
    show (85.0:ℚ) = 85 from by norm_num, show (80.0:ℚ) = 80 from by norm_num,
    show (24.0:ℚ) = 24 from by norm_num, show (9.0:ℚ) = 9 from by norm_num,
    show (4.0:ℚ) = 4 from by norm_num]
  split_ifs with hcond
  · left
    obtain ⟨hc1, hc2⟩ := hcond
    refine ⟨hst, rfl, ?_, ?_, ?_, ?_, ?_, ?_, ?_, hddf⟩
    · exact le_antisymm (min_le_left _ _) hc1
    · exact hc2
    · exact min_le_left _ _
    · refine le_min (by norm_num) ?_
      rw [hrpd]
      linarith [hrpd0]
    · exact min_le_left _ _
    · exact le_trans (min_le_left _ _) (by norm_num)
    · rw [hws]; norm_num
  · right
    refine ⟨hst, rfl, ?_, min_le_left _ _, ?_, ?_, ?_, hws, hddf⟩
    · refine le_min (min_le_left _ _) ?_
      have hc : (4:ℚ) + 1.5*(((k+1):ℕ):ℚ) = (4 + 1.5*(k:ℚ)) + 1.5 := by push_cast; ring
      rw [hc]
      have h1 := min_add_le 12 (4 + 1.5*(k:ℚ)) 1.5 (by norm_num)
      linarith
    · rw [hturb, min_clamp_add _ _ _ (by norm_num)]
      push_cast; ring_nf
    · rw [hrpd, min_clamp_add _ _ _ (by norm_num)]
      push_cast; ring_nf
    · rw [hrain, min_clamp_add _ _ _ (by norm_num)]
      push_cast; ring_nf

lemma frenzy_last (r si : ℕ → ℚ) {st : Storm} (hr : ValidR r)
    (h : FrenzySpec 5 st) : ChaosEntry (step r si st) := by
  rcases frenzy_step r si hr h with hc | hs
  · exact hc
  · exfalso
    obtain ⟨hst6, hfs6, _, _, _, _, _, _, _⟩ := hs
    obtain ⟨hst, hfs, hlfmin, hlfmax, hturb, hrpd, hrain, hws, hddf⟩ := h
    obtain ⟨hu0, hu1⟩ := hr st.rand_index
    rw [show min (12:ℚ) (4 + 1.5*((5:ℕ):ℚ)) = 11.5 from by push_cast; norm_num] at hlfmin
    rw [show min (40:ℚ) (17.5 + 4.2*((5:ℕ):ℚ)) = 38.5 from by push_cast; norm_num] at hturb
    rw [step_full hst] at hfs6
    unfold bumpIter fullStormPhase at hfs6
    rw [hfs] at hfs6
    simp only [full_frenzy_frequency, full_turbulence_peak,
      show (12.0:ℚ) = 12 from by norm_num, show (40.0:ℚ) = 40 from by norm_num] at hfs6
    split_ifs at hfs6 with hcond
    apply hcond
    constructor
    · exact le_min (le_refl _) (by linarith)
    · rw [hturb]
      exact le_min (by norm_num) (by norm_num)

lemma frenzy_escape (r si : ℕ → ℚ) (hr : ValidR r) :
    ∀ m k, k + m = 5 → ∀ st, FrenzySpec k st →
      ∃ d, d ≤ m + 1 ∧ ChaosEntry (stepN r si d st) := by
  intro m
  induction m with
  | zero =>
    intro k hk st h
    have h5 : k = 5 := by omega
    subst h5
    exact ⟨1, le_refl 1, frenzy_last r si hr h⟩
  | succ p ih =>
    intro k hk st h
    rcases frenzy_step r si hr h with hc | hs
    · exact ⟨1, by omega, hc⟩
    · obtain ⟨d, hd, hc⟩ := ih (k + 1) (by omega) (step r si st) hs
      exact ⟨d + 1, by omega, by rw [stepN_succ_left]; exact hc⟩

/-! ### The chaos sub-stage: at most twenty steps from entry to silence -/

lemma chaos_entry_spec {st : Storm} (h : ChaosEntry st) : ChaosSpec 0 st := by
  obtain ⟨hst, hfs, hlf, ht0, ht1, hp0, hp1, hrain, hws, hddf⟩ := h
  refine ⟨hst, hfs, ?_, ht1, ?_, hp1, le_of_eq hlf.symm, by rw [hlf]; norm_num,
    hrain, hws, hddf⟩
  · rw [show min (40:ℚ) (24 + 2*((0:ℕ):ℚ)) = 24 from by push_cast; norm_num]
    exact ht0
  · rw [show min (85:ℚ) (9 + 4*((0:ℕ):ℚ)) = 9 from by push_cast; norm_num]
    exact hp0

lemma chaos_step (r si : ℕ → ℚ) {st : Storm} {k : ℕ} (hr : ValidR r)
    (h : ChaosSpec k st) :
    SilEntry (step r si st) ∨ ChaosSpec (k + 1) (step r si st) := by
  obtain ⟨hst, hfs, htmin, htmax, hpmin, hpmax, hlf1, hlf2, hrain, hws, hddf⟩ := h
  obtain ⟨hu0, hu1⟩ := hr st.rand_index
  rw [step_full hst]
  unfold bumpIter fullStormPhase
  rw [hfs]
  simp only [full_turbulence_peak, full_particle_density_peak,
    show (40.0:ℚ) = 40 from by norm_num, show (85.0:ℚ) = 85 from by norm_num]
  split_ifs with hcond
  · left
    exact ⟨hst, rfl, hrain, le_trans (min_le_left _ _) (by norm_num),
      min_le_left _ _, max_le (le_of_lt hlf2) (by linarith), min_le_left _ _,
      le_of_eq hddf⟩
  · right
    refine ⟨hst, rfl, ?_, min_le_left _ _, ?_, min_le_left _ _,
      le_trans hlf1 (le_max_left _ _), max_lt hlf2 (by linarith),
      hrain, le_trans (min_le_left _ _) (by norm_num), hddf⟩
    · rw [show (24:ℚ) + 2*(((k+1):ℕ):ℚ) = (24 + 2*(k:ℚ)) + 2 from by push_cast; ring,
        ← min_clamp_add 40 (24 + 2*(k:ℚ)) 2 (by norm_num)]
      exact min_le_min (le_refl 40) (by linarith)
    · rw [show (9:ℚ) + 4*(((k+1):ℕ):ℚ) = (9 + 4*(k:ℚ)) + 4 from by push_cast; ring,
        ← min_clamp_add 85 (9 + 4*(k:ℚ)) 4 (by norm_num)]
      exact min_le_min (le_refl 85) (by linarith)

lemma chaos_last (r si : ℕ → ℚ) {st : Storm} (hr : ValidR r)
    (h : ChaosSpec 19 st) : SilEntry (step r si st) := by
  rcases chaos_step r si hr h with hc | hs
  · exact hc
  · exfalso
    obtain ⟨hst6, hfs6, _⟩ := hs
    obtain ⟨hst, hfs, htmin, htmax, hpmin, hpmax, hlf1, hlf2, hrain, hws, hddf⟩ := h
    rw [show min (40:ℚ) (24 + 2*((19:ℕ):ℚ)) = 40 from by push_cast; norm_num] at htmin
    rw [show min (85:ℚ) (9 + 4*((19:ℕ):ℚ)) = 85 from by push_cast; norm_num] at hpmin
    have ht : st.s.turbulence = 40 := le_antisymm htmax htmin
    have hp : st.s.rain_particle_density = 85 := le_antisymm hpmax hpmin
    rw [step_full hst] at hfs6
    unfold bumpIter fullStormPhase at hfs6
    rw [hfs] at hfs6
    simp only [full_turbulence_peak, full_particle_density_peak,
      show (40.0:ℚ) = 40 from by norm_num, show (85.0:ℚ) = 85 from by norm_num] at hfs6
    split_ifs at hfs6 with hcond
    apply hcond
    constructor
    · rw [ht]; exact le_min (by norm_num) (by norm_num)
    · rw [hp]; exact le_min (by norm_num) (by norm_num)

lemma chaos_escape (r si : ℕ → ℚ) (hr : ValidR r) :
    ∀ m k, k + m = 19 → ∀ st, ChaosSpec k st →
      ∃ d, d ≤ m + 1 ∧ SilEntry (stepN r si d st) := by
  intro m
  induction m with
  | zero =>
    intro k hk st h
    have h19 : k = 19 := by omega
    subst h19
    exact ⟨1, le_refl 1, chaos_last r si hr h⟩
  | succ p ih =>
    intro k hk st h
    rcases chaos_step r si hr h with hc | hs
    · exact ⟨1, by omega, hc⟩
    · obtain ⟨d, hd, hc⟩ := ih (k + 1) (by omega) (step r si st) hs
      exact ⟨d + 1, by omega, by rw [stepN_succ_left]; exact hc⟩

/-! ### The silence sub-stage: at most twenty steps from entry to END -/

lemma silence_entry_spec {st : Storm} (h : SilEntry st) : SilenceSpec 0 st := by
  obtain ⟨hst, hfs, h1, h2, h3, h4, h5, h6⟩ := h
  refine ⟨hst, hfs, ?_, ?_, ?_, ?_, ?_, ?_⟩
  · rw [show max (0:ℚ) (80 - 4.5*((0:ℕ):ℚ)) = 80 from by push_cast; norm_num]; exact h1
  · rw [show max (0:ℚ) (50 - 4.5*((0:ℕ):ℚ)) = 50 from by push_cast; norm_num]; exact h2
  · rw [show max (0:ℚ) (40 - 4.5*((0:ℕ):ℚ)) = 40 from by push_cast; norm_num]; exact h3
  · rw [show max (0:ℚ) (12.5 - 4.5*((0:ℕ):ℚ)) = 12.5 from by push_cast; norm_num]; exact h4
  · rw [show max (0:ℚ) (85 - 4.5*((0:ℕ):ℚ)) = 85 from by push_cast; norm_num]; exact h5
  · rw [show max (0:ℚ) (6 - 4.5*((0:ℕ):ℚ)) = 6 from by push_cast; norm_num]; exact h6

lemma silence_step (r si : ℕ → ℚ) {st : Storm} {k : ℕ}
    (h : SilenceSpec k st) :
    (step r si st).state = Phase.END ∨ SilenceSpec (k + 1) (step r si st) := by
  obtain ⟨hst, hfs, h1, h2, h3, h4, h5, h6⟩ := h
  rw [step_full hst]
  unfold bumpIter fullStormPhase
  rw [hfs]
  simp only [silence_decay, show (0.0:ℚ) = 0 from by norm_num]
  split_ifs with hcond
  · left; rfl
  · right
    refine ⟨hst, rfl, ?_, ?_, ?_, ?_, ?_, ?_⟩
    · exact le_trans (max0_decay (by norm_num) h1) (le_of_eq (by push_cast; ring_nf))
    · exact le_trans (max0_decay (by norm_num) h2) (le_of_eq (by push_cast; ring_nf))
    · exact le_trans (max0_decay (by norm_num) h3) (le_of_eq (by push_cast; ring_nf))
    · exact le_trans (max0_decay (by norm_num) h4) (le_of_eq (by push_cast; ring_nf))
    · exact le_trans (max0_decay (by norm_num) h5) (le_of_eq (by push_cast; ring_nf))
    · exact le_trans (max0_decay (by norm_num) h6) (le_of_eq (by push_cast; ring_nf))

lemma silence_last (r si : ℕ → ℚ) {st : Storm}
    (h : SilenceSpec 19 st) : (step r si st).state = Phase.END := by
  rcases silence_step r si h with he | hs
  · exact he
  · exfalso
    obtain ⟨hst6, _⟩ := hs
    obtain ⟨hst, hfs, h1, h2, h3, h4, h5, h6⟩ := h
    rw [show max (0:ℚ) (80 - 4.5*((19:ℕ):ℚ)) = 0 from by push_cast; norm_num] at h1
    rw [show max (0:ℚ) (50 - 4.5*((19:ℕ):ℚ)) = 0 from by push_cast; norm_num] at h2
    rw [show max (0:ℚ) (40 - 4.5*((19:ℕ):ℚ)) = 0 from by push_cast; norm_num] at h3
    rw [show max (0:ℚ) (12.5 - 4.5*((19:ℕ):ℚ)) = 0 from by push_cast; norm_num] at h4
    rw [show max (0:ℚ) (85 - 4.5*((19:ℕ):ℚ)) = 0 from by push_cast; norm_num] at h5
    rw [show max (0:ℚ) (6 - 4.5*((19:ℕ):ℚ)) = 0 from by push_cast; norm_num] at h6
    rw [step_full hst] at hst6
    unfold bumpIter fullStormPhase at hst6
    rw [hfs] at hst6
    simp only [silence_decay, show (0.0:ℚ) = 0 from by norm_num] at hst6
    split_ifs at hst6 with hcond
    apply hcond
    refine ⟨?_, ?_, ?_, ?_, ?_, ?_⟩ <;>
      exact max_le (by norm_num) (by linarith)

lemma silence_escape (r si : ℕ → ℚ) :
    ∀ m k, k + m = 19 → ∀ st, SilenceSpec k st →
      ∃ d, d ≤ m + 1 ∧ (stepN r si d st).state = Phase.END := by
  intro m
  induction m with
  | zero =>
    intro k hk st h
    have h19 : k = 19 := by omega
    subst h19
    exact ⟨1, le_refl 1, silence_last r si h⟩
  | succ p ih =>
    intro k hk st h
    rcases silence_step r si h with he | hs
    · exact ⟨1, by omega, he⟩
    · obtain ⟨d, hd, hc⟩ := ih (k + 1) (by omega) (step r si st) hs
      exact ⟨d + 1, by omega, by rw [stepN_succ_left]; exact hc⟩

/-! ### Assembly: every valid run reaches the END phase -/

lemma storm_reaches_end (r si : ℕ → ℚ) (hr : ValidR r) :
    ∃ n, (stepN r si n init).state = Phase.END := by
  have hF : FrenzyEntry (stepN r si 5 (stepN r si 55 init)) :=
    down_run r si hr (down_entry r si)
  obtain ⟨d1, hd1, hCE⟩ := frenzy_escape r si hr 5 0 (by norm_num) _ (frenzy_entry_spec hF)
  obtain ⟨d2, hd2, hSE⟩ := chaos_escape r si hr 19 0 (by norm_num) _ (chaos_entry_spec hCE)
  obtain ⟨d3, hd3, hEND⟩ := silence_escape r si 19 0 (by norm_num) _ (silence_entry_spec hSE)
  refine ⟨55 + 5 + d1 + d2 + d3, ?_⟩
  rw [stepN_add r si d3 (55 + 5 + d1 + d2), stepN_add r si d2 (55 + 5 + d1),
    stepN_add r si d1 (55 + 5), stepN_add r si 5 55]
  exact hEND

/-! ### Auxiliary trace-level lemmas -/

lemma zs_valid : ValidR zs := fun _ => ⟨le_refl 0, by unfold zs; norm_num⟩

lemma iteration_step (r si : ℕ → ℚ) (st : Storm) (h : st.state ≠ Phase.END) :
    (step r si st).iteration = st.iteration + 1 := by
  cases hst : st.state with
  | BREWING =>
    rw [step_brewing hst]
    unfold bumpIter brewingPhase
    simp only []
    split_ifs <;> simp
  | THRESHOLD =>
    rw [step_threshold hst]
    unfold bumpIter thresholdPhase
    simp only []
    split_ifs <;> simp
  | FULL_STORM =>
    rw [step_full hst]
    unfold bumpIter fullStormPhase
    cases hfs : st.full_stage <;> (simp only []; split_ifs <;> simp)
  | END => exact absurd hst h

lemma dist_step (r si : ℕ → ℚ) (st : Storm) (h : 1 ≤ st.lightning_distance) :
    1 ≤ (step r si st).lightning_distance := by
  cases hst : st.state with
  | BREWING =>
    rw [step_brewing hst]
    unfold bumpIter brewingPhase
    simp only []
    split_ifs <;> exact h
  | THRESHOLD =>
    rw [step_threshold hst]
    unfold bumpIter thresholdPhase
    simp only []
    split_ifs <;> exact le_trans (by norm_num) (le_max_left _ _)
  | FULL_STORM =>
    rw [step_full hst]
    unfold bumpIter fullStormPhase
    cases hfs : st.full_stage <;> (simp only []; split_ifs <;> exact h)
  | END => rw [step_end hst]; exact h

lemma mono_many (r si : ℕ → ℚ) :
    ∀ k st, phaseIdx st.state ≤ phaseIdx ((stepN r si k st).state)
      ∧ stageIdx st.full_stage ≤ stageIdx ((stepN r si k st).full_stage) := by
  intro k
  induction k with
  | zero => exact fun st => ⟨le_refl _, le_refl _⟩
  | succ p ih =>
    intro st
    exact ⟨le_trans (ih st).1 (phase_mono r si (stepN r si p st)),
      le_trans (ih st).2 (stage_mono r si (stepN r si p st))⟩

lemma latch_many (r si : ℕ → ℚ) :
    ∀ k st, (st.s.petrichor_detected = true →
        (stepN r si k st).s.petrichor_detected = true)
      ∧ (st.s.rain_sound_detected = true →
        (stepN r si k st).s.rain_sound_detected = true) := by
  intro k
  induction k with
  | zero => exact fun st => ⟨id, id⟩
  | succ p ih =>
    intro st
    exact ⟨fun h => petrichor_latch r si _ ((ih st).1 h),
      fun h => rain_sound_latch r si _ ((ih st).2 h)⟩

/-! ### The claims -/

/-- C1: the run operation loops while the phase is not END, each iteration
invoking the current phase's update-and-check routine and then incrementing
the iteration counter, and it terminates: for the fixed constants and initial
state (and any valid draw stream, hence in particular the seeded one), the
loop reaches phase END. -/
theorem claim_C1_run_terminates (r si : ℕ → ℚ) (hr : ValidR r) :
    ∃ n, (stepN r si n init).state = Phase.END
      ∧ ∀ k, k < n → (stepN r si k init).state ≠ Phase.END
        ∧ (stepN r si (k + 1) init).iteration = (stepN r si k init).iteration + 1 := by
  have hex := storm_reaches_end r si hr
  refine ⟨Nat.find hex, Nat.find_spec hex, fun k hk => ?_⟩
  have hne := Nat.find_min hex hk
  exact ⟨hne, iteration_step r si _ hne⟩

theorem claim_C1_witness :
    ∃ n, (stepN zs zs n init).state = Phase.END
      ∧ ∀ k, k < n → (stepN zs zs k init).state ≠ Phase.END
        ∧ (stepN zs zs (k + 1) init).iteration = (stepN zs zs k init).iteration + 1 :=
  claim_C1_run_terminates zs zs zs_valid

/-- C2: after every step of every run, each bounded field of the state vector
is inside its clamp interval: humidity in [0,100], shadow density in [0,1],
wind direction in [0,360), and the four storm accumulators individually
bounded (rain intensity in [0,80], downdraft force in [0,6], lightning
frequency in [0,12.5), rain particle density in [0,85]); the clamps are
applied inline so no step ever leaves a bounded field outside its range. -/
theorem claim_C2_clamped_fields (r si : ℕ → ℚ) (hr : ValidR r) (n : ℕ) :
    (0 ≤ (stepN r si n init).s.humidity ∧ (stepN r si n init).s.humidity ≤ 100)
    ∧ (0 ≤ (stepN r si n init).s.shadow_density ∧ (stepN r si n init).s.shadow_density ≤ 1)
    ∧ (0 ≤ (stepN r si n init).s.wind_direction ∧ (stepN r si n init).s.wind_direction < 360)
    ∧ (0 ≤ (stepN r si n init).s.rain_intensity ∧ (stepN r si n init).s.rain_intensity ≤ 80)
    ∧ (0 ≤ (stepN r si n init).s.downdraft_force ∧ (stepN r si n init).s.downdraft_force ≤ 6)
    ∧ (0 ≤ (stepN r si n init).s.lightning_frequency
        ∧ (stepN r si n init).s.lightning_frequency < 12.5)
    ∧ (0 ≤ (stepN r si n init).s.rain_particle_density
        ∧ (stepN r si n init).s.rain_particle_density ≤ 85) := by
  have h := Inv_stepN r si hr n
  exact ⟨h.1, h.2.1, h.2.2.1, h.2.2.2.1, h.2.2.2.2.1, h.2.2.2.2.2.1, h.2.2.2.2.2.2.1⟩

theorem claim_C2_witness :
    (0 ≤ (stepN zs zs 3 init).s.humidity ∧ (stepN zs zs 3 init).s.humidity ≤ 100)
    ∧ (0 ≤ (stepN zs zs 3 init).s.shadow_density ∧ (stepN zs zs 3 init).s.shadow_density ≤ 1)
    ∧ (0 ≤ (stepN zs zs 3 init).s.wind_direction ∧ (stepN zs zs 3 init).s.wind_direction < 360)
    ∧ (0 ≤ (stepN zs zs 3 init).s.rain_intensity ∧ (stepN zs zs 3 init).s.rain_intensity ≤ 80)
    ∧ (0 ≤ (stepN zs zs 3 init).s.downdraft_force ∧ (stepN zs zs 3 init).s.downdraft_force ≤ 6)
    ∧ (0 ≤ (stepN zs zs 3 init).s.lightning_frequency
        ∧ (stepN zs zs 3 init).s.lightning_frequency < 12.5)
    ∧ (0 ≤ (stepN zs zs 3 init).s.rain_particle_density
        ∧ (stepN zs zs 3 init).s.rain_particle_density ≤ 85) :=
  claim_C2_clamped_fields zs zs zs_valid 3

/-- C3: from the documented initial state and constants, after the first
BREWING step the temperature is 19.7, the pressure 1011.5, the wind
instability 0.2, the shadow density 0.15, the humidity 46.5, the soil
temperature 19.9, and the petrichor latch is still false. -/
theorem claim_C3_first_brewing_step (r si : ℕ → ℚ) :
    (stepN r si 1 init).s.temperature = 19.7
    ∧ (stepN r si 1 init).s.pressure = 1011.5
    ∧ (stepN r si 1 init).s.wind_instability = 0.2
    ∧ (stepN r si 1 init).s.shadow_density = 0.15
    ∧ (stepN r si 1 init).s.humidity = 46.5
    ∧ (stepN r si 1 init).s.soil_temperature = 19.9
    ∧ (stepN r si 1 init).s.petrichor_detected = false := by
  obtain ⟨h1, h2, h3, h4, h5, h6, ht, hp, hws, hwi, hhum, hsoil, hsh, hpet, hev,
    hdel, hrs, hrain, hddf, hlf, hturb, hrpd⟩ :=
    scrub_eq_fields (scrub_trace r si 1 (by norm_num))
  exact ⟨ht.trans (by with_unfolding_all decide), hp.trans (by with_unfolding_all decide),
    hwi.trans (by with_unfolding_all decide), hsh.trans (by with_unfolding_all decide),
    hhum.trans (by with_unfolding_all decide), hsoil.trans (by with_unfolding_all decide),
    hpet.trans (by with_unfolding_all decide)⟩

theorem claim_C3_witness :
    (stepN zs zs 1 init).s.temperature = 19.7
    ∧ (stepN zs zs 1 init).s.pressure = 1011.5
    ∧ (stepN zs zs 1 init).s.wind_instability = 0.2
    ∧ (stepN zs zs 1 init).s.shadow_density = 0.15
    ∧ (stepN zs zs 1 init).s.humidity = 46.5
    ∧ (stepN zs zs 1 init).s.soil_temperature = 19.9
    ∧ (stepN zs zs 1 init).s.petrichor_detected = false :=
  claim_C3_first_brewing_step zs zs

/-- C4: every THRESHOLD step adds the fixed gain 8.0 to the charge
accumulator; when the accumulated charge reaches the threshold 24.0 the
lightning-event counter increments by exactly one and exactly 70 percent of
the threshold (24.0 * 0.7 = 16.8) is subtracted, and the remaining charge is
never exactly zero (it is at least 7.2). -/
theorem claim_C4_threshold_charge (r si : ℕ → ℚ) (st : Storm)
    (hst : st.state = Phase.THRESHOLD) :
    (st.charge + threshold_lightning_charge_gain < threshold_lightning_threshold →
      (step r si st).charge = st.charge + 8.0
      ∧ (step r si st).s.lightning_events = st.s.lightning_events)
    ∧ (threshold_lightning_threshold ≤ st.charge + threshold_lightning_charge_gain →
      (step r si st).s.lightning_events = st.s.lightning_events + 1
      ∧ (step r si st).charge = st.charge + 8.0 - 24.0 * 0.7
      ∧ (step r si st).charge ≠ 0) := by
  rw [step_threshold hst]
  unfold bumpIter thresholdPhase
  simp only [threshold_lightning_charge_gain, threshold_lightning_threshold]
  constructor
  · intro hlt
    split_ifs with h1 <;> first
      | exact absurd h1 (by linarith)
      | exact ⟨by simp, by simp⟩
  · intro hge
    split_ifs with h1 <;> first
      | exact absurd hge (by linarith [h1])
      | exact ⟨by simp, by simp, by simp; intro hc; linarith⟩

theorem claim_C4_witness :
    (step zs zs (stepN zs zs 46 init)).s.lightning_events
        = (stepN zs zs 46 init).s.lightning_events + 1
    ∧ (step zs zs (stepN zs zs 46 init)).charge = (stepN zs zs 46 init).charge + 8.0 - 24.0 * 0.7
    ∧ (step zs zs (stepN zs zs 46 init)).charge ≠ 0 :=
  (claim_C4_threshold_charge zs zs (stepN zs zs 46 init)
    (by with_unfolding_all decide)).2 (by with_unfolding_all decide)

/-- C5: the phase only moves forward through BREWING, THRESHOLD, FULL_STORM,
END and the sub-stage only forward through impact, downpour, frenzy, chaos,
silence: along any run, a later step is never at an earlier phase or
sub-stage position than an earlier step. -/
theorem claim_C5_forward_only (r si : ℕ → ℚ) (n m : ℕ) (h : n ≤ m) :
    phaseIdx (stepN r si n init).state ≤ phaseIdx (stepN r si m init).state
    ∧ stageIdx (stepN r si n init).full_stage
        ≤ stageIdx (stepN r si m init).full_stage := by
  obtain ⟨k, rfl⟩ := Nat.exists_eq_add_of_le h
  rw [stepN_add r si k n]
  exact mono_many r si k (stepN r si n init)

theorem claim_C5_witness :
    phaseIdx (stepN zs zs 3 init).state ≤ phaseIdx (stepN zs zs 10 init).state
    ∧ stageIdx (stepN zs zs 3 init).full_stage
        ≤ stageIdx (stepN zs zs 10 init).full_stage :=
  claim_C5_forward_only zs zs 3 10 (by norm_num)

/-- C6: petrichor_detected and rain_sound_detected are monotonic latches:
along any run, once either flag is true at step n it is still true at every
later step m. -/
theorem claim_C6_latches (r si : ℕ → ℚ) (n m : ℕ) (h : n ≤ m) :
    ((stepN r si n init).s.petrichor_detected = true →
      (stepN r si m init).s.petrichor_detected = true)
    ∧ ((stepN r si n init).s.rain_sound_detected = true →
      (stepN r si m init).s.rain_sound_detected = true) := by
  obtain ⟨k, rfl⟩ := Nat.exists_eq_add_of_le h
  rw [stepN_add r si k n]
  exact latch_many r si k (stepN r si n init)

theorem claim_C6_witness :
    (stepN zs zs 54 init).s.petrichor_detected = true
    ∧ (stepN zs zs 54 init).s.rain_sound_detected = true :=
  ⟨(claim_C6_latches zs zs 20 54 (by norm_num)).1 (by with_unfolding_all decide),
    (claim_C6_latches zs zs 50 54 (by norm_num)).2 (by with_unfolding_all decide)⟩

/-- C7: the simulation is deterministic: two freshly constructed engines whose
pseudo-random sources (seeded with the same fixed seed) deliver the same draw
sequence produce identical states, phases and sub-stages at every step. -/
theorem claim_C7_deterministic (r1 r2 si : ℕ → ℚ) (h : ∀ i, r1 i = r2 i) (n : ℕ) :
    stepN r1 si n init = stepN r2 si n init := by
  have hr : r1 = r2 := funext h
  rw [hr]

theorem claim_C7_witness : stepN zs zs 7 init = stepN zs zs 7 init :=
  claim_C7_deterministic zs zs zs (fun _ => rfl) 7

/-- C8: the arithmetic of the program is total: the only division, the
thunder-delay computation lightning_distance / sound_speed, has the nonzero
constant sound_speed = 0.34 as its divisor, and lightning_distance, which is
floor-clamped at 1.0 in the THRESHOLD update, stays at least 1 throughout
every run, so neither operand of the division can reach zero. -/
theorem claim_C8_division_total (r si : ℕ → ℚ) (n : ℕ) :
    1 ≤ (stepN r si n init).lightning_distance ∧ sound_speed ≠ 0 := by
  constructor
  · induction n with
    | zero => norm_num [init, stepN]
    | succ p ih => exact dist_step r si _ ih
  · unfold sound_speed; norm_num

theorem claim_C8_witness :
    1 ≤ (stepN zs zs 4 init).lightning_distance ∧ sound_speed ≠ 0 :=
  claim_C8_division_total zs zs 4

/-- C9 counterexample: at step 25 the wind instability has already reached
exactly the threshold 5.0 while the pressure condition (pressure at most 990)
and the temperature condition (temperature at most 12) are still unsatisfied,
so wind instability does not reach the threshold only after those conditions
are satisfied, let alone 25 steps after them. -/
theorem claim_C9_counterexample :
    (stepN zs zs 25 init).s.wind_instability = brew_wind_instability_threshold
    ∧ ¬((stepN zs zs 25 init).s.pressure ≤ brew_pressure_threshold)
    ∧ ¬((stepN zs zs 25 init).s.temperature ≤ brew_target_temp) := by
  with_unfolding_all decide

/-- C9 amended: wind instability first reaches exactly the threshold 5.0 at
step 25 = ceil(5.0/0.2) counted from the start of BREWING, independently of
the other conditions (the pressure condition is satisfied only at step 44);
and the BREWING-to-THRESHOLD transition is gated by the conjunction of all
five conditions, not by any single one: at step 43 the temperature, wind,
shadow and petrichor conditions all hold but the pressure condition fails and
the phase is still BREWING; at step 44 all five hold and the phase is
THRESHOLD. -/
theorem claim_C9_amended (r si : ℕ → ℚ) :
    (∀ k, k < 25 →
      (stepN r si k init).s.wind_instability < brew_wind_instability_threshold)
    ∧ (stepN r si 25 init).s.wind_instability = brew_wind_instability_threshold
    ∧ (stepN r si 43 init).state = Phase.BREWING
    ∧ (stepN r si 43 init).s.temperature ≤ brew_target_temp
    ∧ brew_wind_instability_threshold ≤ (stepN r si 43 init).s.wind_instability
    ∧ brew_shadow_threshold ≤ (stepN r si 43 init).s.shadow_density
    ∧ (stepN r si 43 init).s.petrichor_detected = true
    ∧ ¬((stepN r si 43 init).s.pressure ≤ brew_pressure_threshold)
    ∧ (stepN r si 44 init).state = Phase.THRESHOLD := by
  have hck : checkRun
      (fun st => decide (st.s.wind_instability < brew_wind_instability_threshold))
      25 init = true := by with_unfolding_all decide
  obtain ⟨a1, a2, a3, a4, a5, a6, at1, ap1, aws, awi, ahum, asoil, ash, apet, aev,
    adel, ars, arain, addf, alf, aturb, arpd⟩ :=
    scrub_eq_fields (scrub_trace r si 25 (by norm_num))
  obtain ⟨b1, b2, b3, b4, b5, b6, bt1, bp1, bws, bwi, bhum, bsoil, bsh, bpet, bev,
    bdel, brs, brain, bddf, blf, bturb, brpd⟩ :=
    scrub_eq_fields (scrub_trace r si 43 (by norm_num))
  obtain ⟨c1, _⟩ := scrub_eq_fields (scrub_trace r si 44 (by norm_num))
  refine ⟨?_, awi.trans (by with_unfolding_all decide),
    b1.trans (by with_unfolding_all decide), ?_, ?_, ?_,
    bpet.trans (by with_unfolding_all decide), ?_,
    c1.trans (by with_unfolding_all decide)⟩
  · intro k hk
    obtain ⟨_, _, _, _, _, _, _, _, _, kwi, _⟩ :=
      scrub_eq_fields (scrub_trace r si k (by omega))
    rw [kwi]
    exact of_decide_eq_true (checkRun_ok 25 init hck k hk)
  · rw [bt1]; with_unfolding_all decide
  · rw [bwi]; with_unfolding_all decide
  · rw [bsh]; with_unfolding_all decide
  · rw [bp1]; with_unfolding_all decide

theorem claim_C9_witness :
    (stepN zs zs 7 init).s.wind_instability < brew_wind_instability_threshold :=
  (claim_C9_amended zs zs).1 7 (by norm_num)

/-- C10: on entry to FULL_STORM the impact sub-stage lasts exactly one step:
rain intensity is still 0.0 at every step up to and including the entry step
54 (no earlier phase modifies it), the single uncapped increment by
full_vertical_burst = 35.0 makes it equal the burst cap, the advance
predicate holds, and after the first FULL_STORM step (step 55) the sub-stage
is downpour with rain intensity 35.0 and downdraft force 6.0. -/
theorem claim_C10_impact_one_step (r si : ℕ → ℚ) :
    (∀ k, k ≤ 54 → (stepN r si k init).s.rain_intensity = 0)
    ∧ (stepN r si 54 init).state = Phase.FULL_STORM
    ∧ (stepN r si 54 init).full_stage = FullStage.impact
    ∧ (stepN r si 55 init).full_stage = FullStage.downpour
    ∧ (stepN r si 55 init).s.rain_intensity = full_vertical_burst
    ∧ full_vertical_burst ≤ (stepN r si 55 init).s.rain_intensity
    ∧ (stepN r si 55 init).s.downdraft_force = 6.0 := by
  have hck : checkRun (fun st => decide (st.s.rain_intensity = 0)) 55 init = true := by
    with_unfolding_all decide
  obtain ⟨a1, a2, _⟩ := scrub_eq_fields (scrub_trace r si 54 (by norm_num))
  obtain ⟨b1, b2, b3, b4, b5, b6, bt1, bp1, bws, bwi, bhum, bsoil, bsh, bpet, bev,
    bdel, brs, brain, bddf, blf, bturb, brpd⟩ :=
    scrub_eq_fields (scrub_trace r si 55 (by norm_num))
  refine ⟨?_, a1.trans (by with_unfolding_all decide),
    a2.trans (by with_unfolding_all decide),
    b2.trans (by with_unfolding_all decide),
    brain.trans (by with_unfolding_all decide), ?_,
    bddf.trans (by with_unfolding_all decide)⟩
  · intro k hk
    obtain ⟨_, _, _, _, _, _, _, _, _, _, _, _, _, _, _, _, _, krain, _⟩ :=
      scrub_eq_fields (scrub_trace r si k (by omega))
    rw [krain]
    exact of_decide_eq_true (checkRun_ok 55 init hck k (by omega))
  · rw [brain]; with_unfolding_all decide

theorem claim_C10_witness : (stepN zs zs 10 init).s.rain_intensity = 0 :=
  (claim_C10_impact_one_step zs zs).1 10 (by norm_num)

end StormSim
